import Mathlib

/-!
Shallow embedding of the hamtube karaoke room core:
`server/lib/KaraokeRoom.js` (room state machine) and
`src/server/util/socket.js` (signalling relay).

JavaScript objects keyed by socket id are modelled as lists of ids in
insertion order (`Object.keys` order); the `io`/socket emissions are made
explicit as a trace of `Emission` values returned next to the new state.
-/

namespace Hamtube

/-- Opaque video metadata submitted with a song; only `title` and `url`
are ever read by the core. -/
structure VideoData where
  title : String
  url : String
  deriving DecidableEq, Repr

/-- A queued song: `\x7b singerId, videoData \x7d` as pushed by
`addToSongQueue`. -/
structure Song where
  singerId : String
  videoData : VideoData
  deriving DecidableEq, Repr

/-- Modelled from the spec: `PLAYER_STATES` (`server/lib/playerStates.js`
is not in the sources). The spec lists playerStatus values NONE,
UNSTARTED, PLAYING, ENDED; NONE is the JS `null`, modelled as `none` of
`Option PlayerState`. -/
inductive PlayerState where
  | UNSTARTED
  | PLAYING
  | ENDED
  deriving DecidableEq, Repr

/-- The room snapshot built by `roomData()`. -/
structure RoomSnapshot where
  currentSong : Option Song
  currentSinger : Option String
  upNext : Option Song
  position : Nat
  deriving DecidableEq, Repr

/-- One outbound transport message. `none` as a target means a broadcast
to the whole room (`io.to(this.id)`), `some sid` a single socket. -/
inductive Emission where
  | notification (message : String)
  | roomData (target : Option String) (data : RoomSnapshot)
  | videoControl (target : Option String) (code : PlayerState)
  | songAddedSuccess (target : String) (message : String)
  | peerMsg (target : String) (peerId : String) (initiator : Bool)
  | signalMsg (target : String) (signal : String) (peerId : String)
  deriving DecidableEq, Repr

/-- Mutable fields of a `KaraokeRoom` instance (constructor lines 41-46).
`users` holds the ids of the connected sockets in insertion order. -/
structure RoomState where
  songQueue : List Song
  nowPlaying : Option Song
  videoPosition : Nat
  users : List String
  awaitingClients : List String
  playerStatus : Option PlayerState
  deriving DecidableEq, Repr

/-- The state a fresh room is constructed with. -/
def initialRoom : RoomState :=
  { songQueue := []
    nowPlaying := none
    videoPosition := 0
    users := []
    awaitingClients := []
    playerStatus := none }

/-- `roomData()`: the snapshot sent to clients. -/
def roomData (r : RoomState) : RoomSnapshot :=
  { currentSong := r.nowPlaying
    currentSinger := r.nowPlaying.map Song.singerId
    upNext := r.songQueue.head?
    position := r.videoPosition }

/-- `playVideo(socket)`: sets playerStatus to PLAYING and emits a
`video-control` PLAYING directive. -/
def playVideo (r : RoomState) (target : Option String) :
    RoomState × List Emission :=
  ({ r with playerStatus := some PlayerState.PLAYING },
   [Emission.videoControl target PlayerState.PLAYING])

/-- `stopVideo(socket)`: emits a `video-control` ENDED directive; the
stored playerStatus is not changed. -/
def stopVideo (r : RoomState) (target : Option String) :
    RoomState × List Emission :=
  (r, [Emission.videoControl target PlayerState.ENDED])

/-- `refreshAwaitingClients()`: awaitingClients becomes
`Object.keys(this.users)`. -/
def refreshAwaitingClients (r : RoomState) : RoomState :=
  { r with awaitingClients := r.users }

/-- `removeUserFromAwaiting(socket)`: filters the socket id out of
awaitingClients. -/
def removeUserFromAwaiting (r : RoomState) (sid : String) : RoomState :=
  { r with awaitingClients := r.awaitingClients.filter (fun i => i != sid) }

/-- `cycleSongs()`: shifts the head of the queue into nowPlaying (null if
empty), resets videoPosition, and either arms a fresh readiness barrier
(UNSTARTED) or goes idle (status null, barrier cleared). -/
def cycleSongs (r : RoomState) : RoomState × List Emission :=
  match r.songQueue with
  | song :: rest =>
      let r1 : RoomState :=
        { r with
          songQueue := rest
          nowPlaying := some song
          videoPosition := 0
          playerStatus := some PlayerState.UNSTARTED }
      let r2 := refreshAwaitingClients r1
      (r2, [Emission.notification ("Queueing up " ++ song.videoData.title)])
  | [] =>
      let r1 : RoomState :=
        { r with
          songQueue := []
          nowPlaying := none
          videoPosition := 0
          playerStatus := none
          awaitingClients := [] }
      (r1, [Emission.notification "Song Queue is empty. Add more!"])

/-- `updateAwaitingClients(socket)`: removes the id from the barrier; if
the barrier is now empty and a song is loaded, broadcasts "Now playing"
and starts playback. -/
def updateAwaitingClients (r : RoomState) (sid : String) :
    RoomState × List Emission :=
  let r1 := removeUserFromAwaiting r sid
  match r1.awaitingClients, r1.nowPlaying with
  | [], some s =>
      let p := playVideo r1 none
      (p.1, Emission.notification ("Now playing: " ++ s.videoData.title) :: p.2)
  | _ :: _, _ => (r1, [])
  | [], none => (r1, [])

/-- `addUser(socket)`: registers the socket id, sends it a snapshot, and
appends it to the barrier only when the barrier is already non-empty. -/
def addUser (r : RoomState) (sid : String) : RoomState × List Emission :=
  let r1 : RoomState :=
    { r with users := if r.users.contains sid then r.users else r.users ++ [sid] }
  let r2 :=
    if r1.awaitingClients.length > 0 then
      { r1 with awaitingClients := r1.awaitingClients ++ [sid] }
    else r1
  (r2, [Emission.roomData (some sid) (roomData r1)])

/-- `removeUser(socket)`: barrier decrement, then — if the departing id
was the singer of nowPlaying — stop and advance the queue; the id is
deleted from `users` only afterwards. -/
def removeUser (r : RoomState) (sid : String) : RoomState × List Emission :=
  let u := updateAwaitingClients r sid
  let step :=
    match u.1.nowPlaying with
    | some s =>
        if s.singerId = sid then
          let st := stopVideo u.1 none
          let cy := cycleSongs st.1
          (cy.1, st.2 ++ cy.2)
        else (u.1, ([] : List Emission))
    | none => (u.1, ([] : List Emission))
  ({ step.1 with users := step.1.users.filter (fun i => i != sid) },
   u.2 ++ step.2)

/-- Modelled from the spec: `getNumberWithOrdinal`
(`server/util/numberHelper.js` is not in the sources). Ordinal suffix
rules: 1→st, 2→nd, 3→rd, 4-20→th with 11,12,13→th, then repeating by
last digit (mod 100 for the teens exception). -/
def getNumberWithOrdinal (n : Nat) : String :=
  let suffix :=
    if n % 100 = 11 ∨ n % 100 = 12 ∨ n % 100 = 13 then "th"
    else if n % 10 = 1 then "st"
    else if n % 10 = 2 then "nd"
    else if n % 10 = 3 then "rd"
    else "th"
  toString n ++ suffix

/-- `songQueueUpdated()`: broadcasts the queue-growth notification, then
either re-broadcasts the snapshot (a song is loaded) or cycles. -/
def songQueueUpdated (r : RoomState) : RoomState × List Emission :=
  let e0 := Emission.notification
    ("A new song was just added to the queue 👻 (" ++
      toString r.songQueue.length ++ " total)")
  match r.nowPlaying with
  | some _ => (r, [e0, Emission.roomData none (roomData r)])
  | none =>
      let cy := cycleSongs r
      (cy.1, e0 :: cy.2)

/-- Result of a call that can throw midway: `ok = false` records that the
JS method raised, with `state`/`emissions` the mutations and messages
already performed before the throw. -/
structure CallResult where
  state : RoomState
  emissions : List Emission
  ok : Bool
  deriving DecidableEq, Repr

/-- `addToSongQueue(videoData, userId)`: pushes the song, runs
`songQueueUpdated`, then emits the personalized confirmation through
`this.users[userId]` — which is an undefined-property throw when the id
is not registered (the push and queue notifications have already
happened by then). -/
def addToSongQueue (r : RoomState) (videoData : VideoData) (userId : String) :
    CallResult :=
  let r1 : RoomState :=
    { r with songQueue := r.songQueue ++ [{ singerId := userId, videoData := videoData }] }
  let su := songQueueUpdated r1
  let message :=
    if su.1.songQueue.length = 0 then
      "Song added. Get ready to sing!"
    else
      "Song added. It\x27s " ++ getNumberWithOrdinal su.1.songQueue.length ++
        " in line. 🔥"
  if su.1.users.contains userId then
    { state := su.1
      emissions := su.2 ++ [Emission.songAddedSuccess userId message]
      ok := true }
  else
    { state := su.1
      emissions := su.2
      ok := false }

/-- The anonymous `socket.on("signal", ...)` handler (the spec's
`relaySignal`): `connected` is the key set of `io.sockets.connected`. -/
def relaySignal (connected : List String) (fromId toId : String)
    (payload : String) : List Emission :=
  if connected.contains toId then
    [Emission.signalMsg toId payload fromId]
  else []

/-- The peer-introduction loop of `onConnection`: `roomMembers` is the
key set of the room's socket set (the new socket has already joined), and
for every other member S the relay emits `peer` to S about the newcomer
with `initiator = true` and `peer` to the newcomer about S with
`initiator = false`. -/
def peerIntroductions (roomMembers : List String) (newId : String) :
    List Emission :=
  (roomMembers.filter (fun i => i != newId)).flatMap (fun s =>
    [Emission.peerMsg s newId true, Emission.peerMsg newId s false])

/-! ### Derived runs and observation helpers -/

/-- A sequence of "client ready" reports, each routed to
`updateAwaitingClients` (the removeUser-style barrier decrement), with
the emitted messages concatenated in order. -/
def runReports (r : RoomState) (sids : List String) :
    RoomState × List Emission :=
  match sids with
  | [] => (r, [])
  | sid :: rest =>
      let u := updateAwaitingClients r sid
      let w := runReports u.1 rest
      (w.1, u.2 ++ w.2)

/-- Whether the report sequence empties the barrier exactly at its last
report: before the last report the barrier is still non-empty, after it
the barrier is empty. -/
def drainsAtEnd (r : RoomState) (sids : List String) : Bool :=
  match sids with
  | [] => false
  | sid :: rest =>
      let r1 := (updateAwaitingClients r sid).1
      if r1.awaitingClients.isEmpty then rest.isEmpty
      else drainsAtEnd r1 rest

/-- Recognizes the "Now playing: <title>" room broadcast. -/
def isNowPlayingMsg : Emission → Bool
  | Emission.notification m => decide (m.data.take 13 = "Now playing: ".data)
  | _ => false

/-- Number of "now playing" broadcasts in an emission trace. -/
def countNowPlaying (es : List Emission) : Nat :=
  (es.filter isNowPlayingMsg).length

/-! ### Shared helper lemmas -/

lemma filter_bne_of_not_mem (l : List String) (sid : String)
    (h : sid ∉ l) : l.filter (fun i => i != sid) = l := by
  apply List.filter_eq_self.mpr
  intro a ha
  simp only [bne_iff_ne, ne_eq]
  rintro rfl
  exact h ha

lemma contains_eq_true_of_mem (l : List String) (sid : String)
    (h : sid ∈ l) : l.contains sid = true := by
  simpa using h

/-! ### Claim theorems -/

/-- C1: `cycleSongs` pops the head of `songQueue` into `nowPlaying`
(absent when the queue was empty) and resets `videoPosition` to 0; when
a song was obtained it sets `playerStatus` to UNSTARTED and resets
`awaitingClients` to exactly the current user-id set of `users`; when
the queue was empty it sets `playerStatus` to NONE (null) and clears
`awaitingClients`. -/
theorem cycleSongs_pops_head_and_arms_barrier (r : RoomState) :
    (cycleSongs r).1.nowPlaying = r.songQueue.head? ∧
    (cycleSongs r).1.songQueue = r.songQueue.tail ∧
    (cycleSongs r).1.videoPosition = 0 ∧
    (r.songQueue ≠ [] →
      (cycleSongs r).1.playerStatus = some PlayerState.UNSTARTED ∧
      (cycleSongs r).1.awaitingClients = r.users) ∧
    (r.songQueue = [] →
      (cycleSongs r).1.playerStatus = none ∧
      (cycleSongs r).1.awaitingClients = []) := by
  cases h : r.songQueue <;>
    simp [cycleSongs, refreshAwaitingClients, h]

/-- A concrete room with one queued song and two users. -/
def oneSongRoom : RoomState :=
  { initialRoom with
      songQueue := [{ singerId := "A", videoData := { title := "t", url := "u" } }],
      users := ["A", "B"] }

/-- Witness for C1 at a concrete one-song room. -/
theorem cycleSongs_pops_head_and_arms_barrier_witness :
    oneSongRoom.songQueue ≠ [] ∧
    ((cycleSongs oneSongRoom).1.playerStatus = some PlayerState.UNSTARTED ∧
     (cycleSongs oneSongRoom).1.awaitingClients = oneSongRoom.users) :=
  ⟨by decide,
   (cycleSongs_pops_head_and_arms_barrier oneSongRoom).2.2.2.1 (by decide)⟩

/-- C4: `addUser` appends the joining id to `awaitingClients` exactly
when the barrier is already non-empty; with an empty barrier nothing is
added, regardless of the queue or of an UNSTARTED `nowPlaying`. -/
theorem addUser_barrier_join (r : RoomState) (sid : String) :
    (r.awaitingClients ≠ [] →
      (addUser r sid).1.awaitingClients = r.awaitingClients ++ [sid]) ∧
    (r.awaitingClients = [] → (addUser r sid).1.awaitingClients = []) := by
  cases h : r.awaitingClients <;> simp [addUser, h]

/-- A concrete room with an armed one-member barrier and an UNSTARTED
song status. -/
def barrierRoom : RoomState :=
  { initialRoom with
      awaitingClients := ["A"],
      users := ["A"],
      playerStatus := some PlayerState.UNSTARTED }

/-- Witness for C4: joining with a non-empty barrier, in a room whose
song is UNSTARTED. -/
theorem addUser_barrier_join_witness :
    barrierRoom.awaitingClients ≠ [] ∧
    (addUser barrierRoom "B").1.awaitingClients =
      barrierRoom.awaitingClients ++ ["B"] :=
  ⟨by decide, (addUser_barrier_join barrierRoom "B").1 (by decide)⟩

/-- C8: the `signal` handler drops the payload when no live session
exists for the target id (no outbound message; the handler is a total
function, so no exception), and otherwise forwards exactly
`signal = payload, peerId = fromSessionId` to the target. -/
theorem relaySignal_drops_or_forwards (connected : List String)
    (fromId toId payload : String) :
    (toId ∉ connected → relaySignal connected fromId toId payload = []) ∧
    (toId ∈ connected →
      relaySignal connected fromId toId payload =
        [Emission.signalMsg toId payload fromId]) := by
  constructor <;> intro h <;> simp [relaySignal, h]

/-- Witness for C8: a dropped signal and a forwarded one. -/
theorem relaySignal_drops_or_forwards_witness :
    ("C" ∉ (["A", "B"] : List String) ∧
      relaySignal ["A", "B"] "A" "C" "p" = []) ∧
    ("B" ∈ (["A", "B"] : List String) ∧
      relaySignal ["A", "B"] "A" "B" "p" =
        [Emission.signalMsg "B" "p" "A"]) :=
  ⟨⟨by decide, (relaySignal_drops_or_forwards ["A", "B"] "A" "C" "p").1 (by decide)⟩,
   ⟨by decide, (relaySignal_drops_or_forwards ["A", "B"] "A" "B" "p").2 (by decide)⟩⟩

/-- C9 counterexample: with one existing member "A" and newcomer "N",
the loop emits 2 messages, but the newcomer is never informed of "A"
with `initiator = true` — the flags are the other way around (the
existing member gets `initiator = true`, the newcomer gets
`initiator = false`). -/
theorem peer_introductions_cex :
    (peerIntroductions ["A", "N"] "N").length = 2 ∧
    Emission.peerMsg "N" "A" true ∉ peerIntroductions ["A", "N"] "N" ∧
    Emission.peerMsg "A" "N" true ∈ peerIntroductions ["A", "N"] "N" := by
  decide

lemma peerPairs_length (l : List String) (newId : String) :
    (l.flatMap (fun s =>
      [Emission.peerMsg s newId true, Emission.peerMsg newId s false])).length =
      2 * l.length := by
  induction l with
  | nil => rfl
  | cons a as ih =>
      simp only [List.flatMap_cons, List.length_append, List.length_cons,
        List.length_nil, ih]
      ring

lemma peerPairs_mem (l : List String) (newId s : String) (hs : s ∈ l) :
    Emission.peerMsg s newId true ∈ (l.flatMap (fun t =>
      [Emission.peerMsg t newId true, Emission.peerMsg newId t false])) ∧
    Emission.peerMsg newId s false ∈ (l.flatMap (fun t =>
      [Emission.peerMsg t newId true, Emission.peerMsg newId t false])) := by
  constructor <;> (rw [List.mem_flatMap]; exact ⟨s, hs, by simp⟩)

/-- C9 (amended): for a newcomer joining a room with k existing
sessions, exactly 2k `peer` messages are emitted: each existing session
S is informed of the newcomer N with `initiator = true`, and N is
informed of S with `initiator = false`. -/
theorem peer_introductions_flags (roomMembers : List String) (newId : String) :
    (peerIntroductions roomMembers newId).length =
      2 * (roomMembers.filter (fun i => i != newId)).length ∧
    ∀ s ∈ roomMembers.filter (fun i => i != newId),
      Emission.peerMsg s newId true ∈ peerIntroductions roomMembers newId ∧
      Emission.peerMsg newId s false ∈ peerIntroductions roomMembers newId := by
  refine ⟨peerPairs_length _ _, fun s hs => peerPairs_mem _ _ s hs⟩

/-- Witness for C9's amended theorem at members A, B plus newcomer N. -/
theorem peer_introductions_flags_witness :
    (peerIntroductions ["A", "B", "N"] "N").length =
      2 * ((["A", "B", "N"] : List String).filter (fun i => i != "N")).length ∧
    Emission.peerMsg "A" "N" true ∈ peerIntroductions ["A", "B", "N"] "N" ∧
    Emission.peerMsg "N" "A" false ∈ peerIntroductions ["A", "B", "N"] "N" :=
  ⟨(peer_introductions_flags ["A", "B", "N"] "N").1,
   ((peer_introductions_flags ["A", "B", "N"] "N").2 "A" (by decide)).1,
   ((peer_introductions_flags ["A", "B", "N"] "N").2 "A" (by decide)).2⟩

/-- C5: with no song loaded and an empty queue, the first `enqueueSong`
appends the song and immediately cycles: afterwards `nowPlaying` is the
enqueued song, the queue is empty again, the status is UNSTARTED and the
"Queueing up" notification was broadcast; with a song already loaded, no
cycle happens — the state changes only by the tail append and the
emissions are exactly the queue-growth notification, the room snapshot
broadcast and the personal confirmation. -/
theorem enqueue_first_song_cycles (r : RoomState) (v : VideoData)
    (uid : String) (hu : uid ∈ r.users) :
    (r.nowPlaying = none → r.songQueue = [] →
      (addToSongQueue r v uid).state.nowPlaying =
        some { singerId := uid, videoData := v } ∧
      (addToSongQueue r v uid).state.songQueue = [] ∧
      (addToSongQueue r v uid).state.playerStatus =
        some PlayerState.UNSTARTED ∧
      (addToSongQueue r v uid).state.awaitingClients = r.users ∧
      (addToSongQueue r v uid).emissions =
        [Emission.notification
          ("A new song was just added to the queue 👻 (" ++
            toString (r.songQueue.length + 1) ++ " total)"),
         Emission.notification ("Queueing up " ++ v.title),
         Emission.songAddedSuccess uid "Song added. Get ready to sing!"]) ∧
    (∀ s, r.nowPlaying = some s →
      (addToSongQueue r v uid).state =
        { r with songQueue :=
            r.songQueue ++ [{ singerId := uid, videoData := v }] } ∧
      (addToSongQueue r v uid).emissions =
        [Emission.notification
          ("A new song was just added to the queue 👻 (" ++
            toString (r.songQueue.length + 1) ++ " total)"),
         Emission.roomData none
          ({ currentSong := some s
             currentSinger := some s.singerId
             upNext :=
               (r.songQueue ++ [({ singerId := uid, videoData := v } : Song)]).head?
             position := r.videoPosition } : RoomSnapshot),
         Emission.songAddedSuccess uid
          ("Song added. It\x27s " ++
            getNumberWithOrdinal (r.songQueue.length + 1) ++
            " in line. 🔥")]) := by
  constructor
  · intro hnp hq
    simp [addToSongQueue, songQueueUpdated, cycleSongs, roomData,
      refreshAwaitingClients, hnp, hq, hu]
  · intro s hnp
    simp [addToSongQueue, songQueueUpdated, roomData, hnp, hu]

/-- A concrete room with a loaded song (singer "A") and two users. -/
def playingRoom : RoomState :=
  { initialRoom with
      nowPlaying := some { singerId := "A", videoData := { title := "t", url := "u" } }
      users := ["A", "B"]
      playerStatus := some PlayerState.PLAYING }

/-- Witness for C5: enqueueing into `playingRoom` only appends. -/
theorem enqueue_first_song_cycles_witness :
    "B" ∈ playingRoom.users ∧
    (addToSongQueue playingRoom { title := "t2", url := "u2" } "B").state =
      { playingRoom with
          songQueue := playingRoom.songQueue ++
            [{ singerId := "B", videoData := { title := "t2", url := "u2" } }] } :=
  ⟨by decide,
   ((enqueue_first_song_cycles playingRoom { title := "t2", url := "u2" } "B"
      (by decide)).2
     { singerId := "A", videoData := { title := "t", url := "u" } } rfl).1⟩

/-- A fresh room with two registered users and nothing playing. -/
def freshTwoUserRoom : RoomState :=
  { initialRoom with users := ["A", "B"] }

/-- C6 counterexample: on the first `enqueueSong` into a fresh room the
song starts immediately, and the submitter's confirmation is the
no-ordinal "Get ready to sing!" text — the ordinal confirmation for
position 1 ("1st") is never sent, so not every call confirms with an
ordinal position. -/
theorem enqueue_ordinal_confirmation_cex :
    freshTwoUserRoom.nowPlaying = none ∧
    "A" ∈ freshTwoUserRoom.users ∧
    (addToSongQueue freshTwoUserRoom { title := "t", url := "u" } "A").emissions =
      [Emission.notification "A new song was just added to the queue 👻 (1 total)",
       Emission.notification "Queueing up t",
       Emission.songAddedSuccess "A" "Song added. Get ready to sing!"] ∧
    Emission.songAddedSuccess "A"
        ("Song added. It\x27s " ++ getNumberWithOrdinal 1 ++ " in line. 🔥") ∉
      (addToSongQueue freshTwoUserRoom { title := "t", url := "u" } "A").emissions := by
  decide

/-- C6 (amended): for every `enqueueSong` call that leaves the
submitted song in line (a song is already loaded, so the song is the
n-th queued), the personal confirmation carries the song's 1-based
position in line — the new queue length n — rendered with the standard
ordinal suffix (1→st, 2→nd, 3→rd, 4-20→th including 11th/12th/13th, and
by last digit thereafter with the mod-100 teens exception); when
nothing is loaded the song starts immediately and the confirmation
carries no ordinal (see the counterexample). The suffix rules are those
of the spec-modelled `getNumberWithOrdinal`. -/
theorem enqueue_ordinal_confirmation (r : RoomState) (v : VideoData)
    (uid : String) (hu : uid ∈ r.users) (hs : r.nowPlaying ≠ none) :
    (Emission.songAddedSuccess uid
        ("Song added. It\x27s " ++
          getNumberWithOrdinal (r.songQueue.length + 1) ++ " in line. 🔥") ∈
      (addToSongQueue r v uid).emissions ∧
     (addToSongQueue r v uid).state.songQueue.length =
       r.songQueue.length + 1) ∧
    (getNumberWithOrdinal 1 = "1st" ∧ getNumberWithOrdinal 2 = "2nd" ∧
     getNumberWithOrdinal 3 = "3rd" ∧ getNumberWithOrdinal 11 = "11th" ∧
     getNumberWithOrdinal 12 = "12th" ∧ getNumberWithOrdinal 13 = "13th" ∧
     getNumberWithOrdinal 21 = "21st") ∧
    (∀ n, 4 ≤ n → n ≤ 20 → getNumberWithOrdinal n = toString n ++ "th") ∧
    (∀ n, ¬(n % 100 = 11 ∨ n % 100 = 12 ∨ n % 100 = 13) →
      (n % 10 = 1 → getNumberWithOrdinal n = toString n ++ "st") ∧
      (n % 10 = 2 → getNumberWithOrdinal n = toString n ++ "nd") ∧
      (n % 10 = 3 → getNumberWithOrdinal n = toString n ++ "rd")) ∧
    (∀ n, n % 10 ≠ 1 → n % 10 ≠ 2 → n % 10 ≠ 3 →
      getNumberWithOrdinal n = toString n ++ "th") := by
  refine ⟨?_, by decide, ?_, ?_, ?_⟩
  · obtain ⟨s, hnp⟩ := Option.ne_none_iff_exists'.mp hs
    simp [addToSongQueue, songQueueUpdated, hnp, hu]
  · intro n h4 h20
    interval_cases n <;> decide
  · intro n hteens
    refine ⟨fun h1 => ?_, fun h2 => ?_, fun h3 => ?_⟩
    · simp [getNumberWithOrdinal, hteens, h1]
    · simp [getNumberWithOrdinal, hteens, h2]
    · simp [getNumberWithOrdinal, hteens, h3]
  · intro n h1 h2 h3
    have hteens : ¬(n % 100 = 11 ∨ n % 100 = 12 ∨ n % 100 = 13) := by omega
    simp [getNumberWithOrdinal, hteens, h1, h2, h3]

/-- Witness for C6: the enqueued song in `playingRoom` is confirmed as
"1st" in line. -/
theorem enqueue_ordinal_confirmation_witness :
    "B" ∈ playingRoom.users ∧
    Emission.songAddedSuccess "B"
        ("Song added. It\x27s " ++
          getNumberWithOrdinal (playingRoom.songQueue.length + 1) ++
          " in line. 🔥") ∈
      (addToSongQueue playingRoom { title := "t2", url := "u2" } "B").emissions :=
  ⟨by decide,
   ((enqueue_ordinal_confirmation playingRoom { title := "t2", url := "u2" } "B"
      (by decide) (by decide)).1).1⟩

/-- C10: `addToSongQueue` silently assumes the submitting id is a
registered user: for a member the call completes (`ok = true`); for a
non-member it raises on the final confirmation emit (`ok = false`), but
only after the song was pushed and the queue-growth notification
broadcast, leaving the room state mutated. -/
theorem enqueue_member_precondition (r : RoomState) (v : VideoData)
    (uid : String) :
    (uid ∈ r.users → (addToSongQueue r v uid).ok = true) ∧
    (uid ∉ r.users →
      (addToSongQueue r v uid).ok = false ∧
      Emission.notification
          ("A new song was just added to the queue 👻 (" ++
            toString (r.songQueue.length + 1) ++ " total)") ∈
        (addToSongQueue r v uid).emissions ∧
      (addToSongQueue r v uid).state ≠ r) := by
  constructor
  · intro hu
    cases hnp : r.nowPlaying with
    | some s => simp [addToSongQueue, songQueueUpdated, hnp, hu]
    | none =>
        cases hq : r.songQueue with
        | nil =>
            simp [addToSongQueue, songQueueUpdated, cycleSongs,
              refreshAwaitingClients, hnp, hq, hu]
        | cons q qs =>
            simp [addToSongQueue, songQueueUpdated, cycleSongs,
              refreshAwaitingClients, hnp, hq, hu]
  · intro hu
    cases hnp : r.nowPlaying with
    | some s =>
        refine ⟨by simp [addToSongQueue, songQueueUpdated, hnp, hu],
          by simp [addToSongQueue, songQueueUpdated, hnp, hu], fun h => ?_⟩
        have hlen := congrArg (fun st => st.songQueue.length) h
        simp [addToSongQueue, songQueueUpdated, hnp, hu] at hlen
    | none =>
        cases hq : r.songQueue with
        | nil =>
            refine ⟨by simp [addToSongQueue, songQueueUpdated, cycleSongs,
                refreshAwaitingClients, hnp, hq, hu],
              by simp [addToSongQueue, songQueueUpdated, cycleSongs,
                refreshAwaitingClients, hnp, hq, hu], fun h => ?_⟩
            have hn := congrArg RoomState.nowPlaying h
            simp [addToSongQueue, songQueueUpdated, cycleSongs,
              refreshAwaitingClients, hnp, hq, hu] at hn
        | cons q qs =>
            refine ⟨by simp [addToSongQueue, songQueueUpdated, cycleSongs,
                refreshAwaitingClients, hnp, hq, hu],
              by simp [addToSongQueue, songQueueUpdated, cycleSongs,
                refreshAwaitingClients, hnp, hq, hu], fun h => ?_⟩
            have hn := congrArg RoomState.nowPlaying h
            simp [addToSongQueue, songQueueUpdated, cycleSongs,
              refreshAwaitingClients, hnp, hq, hu] at hn

/-- Witness for C10: submitting from the unregistered id "Z" into
`playingRoom` fails after mutating the queue. -/
theorem enqueue_member_precondition_witness :
    "Z" ∉ playingRoom.users ∧
    ((addToSongQueue playingRoom { title := "t2", url := "u2" } "Z").ok = false ∧
     Emission.notification
         ("A new song was just added to the queue 👻 (" ++
           toString (playingRoom.songQueue.length + 1) ++ " total)") ∈
       (addToSongQueue playingRoom { title := "t2", url := "u2" } "Z").emissions ∧
     (addToSongQueue playingRoom { title := "t2", url := "u2" } "Z").state ≠
       playingRoom) :=
  ⟨by decide,
   (enqueue_member_precondition playingRoom { title := "t2", url := "u2" } "Z").2
     (by decide)⟩

/-- A room whose loaded song belongs to the already-departed singer "A"
(reachable: the singer queued a second song sung by nobody yet, or ids
linger per the removeUser ordering), with "A" in neither `users` nor
`awaitingClients`. -/
def staleSingerRoom : RoomState :=
  { initialRoom with
      nowPlaying := some { singerId := "A", videoData := { title := "tA", url := "uA" } }
      videoPosition := 5
      users := ["B"]
      awaitingClients := ["B"]
      playerStatus := some PlayerState.PLAYING }

/-- C7 counterexample: removing the absent id "A" from
`staleSingerRoom` is not a no-op — the singer check matches the departed
id, so the room stops and advances the queue, changing the state and
emitting messages. -/
theorem removeUser_absent_cex :
    "A" ∉ staleSingerRoom.users ∧
    "A" ∉ staleSingerRoom.awaitingClients ∧
    (removeUser staleSingerRoom "A").1 ≠ staleSingerRoom ∧
    (removeUser staleSingerRoom "A").2 ≠ [] := by decide

/-- C7 (amended): removing an absent session id raises no error (the
handler is total) and is a complete no-op — state unchanged, nothing
emitted — provided the absent id is not recorded as the singer of
`nowPlaying` and the barrier is not already empty while a song is
loaded (in those two cases `removeUser` still fires the singer-skip or
the "now playing" broadcast). -/
theorem removeUser_absent_noop (r : RoomState) (sid : String)
    (hu : sid ∉ r.users) (ha : sid ∉ r.awaitingClients)
    (hbar : r.awaitingClients = [] → r.nowPlaying = none)
    (hsing : ∀ s, r.nowPlaying = some s → s.singerId ≠ sid) :
    removeUser r sid = (r, []) := by
  obtain ⟨q, np, vp, us, ac, ps⟩ := r
  have hf : ac.filter (fun i => i != sid) = ac :=
    filter_bne_of_not_mem _ _ ha
  have hfu : us.filter (fun i => i != sid) = us :=
    filter_bne_of_not_mem _ _ hu
  cases ac with
  | nil =>
      have hnp : np = none := hbar rfl
      subst hnp
      simp [removeUser, updateAwaitingClients, removeUserFromAwaiting, hfu]
  | cons a as =>
      cases np with
      | none =>
          simp [removeUser, updateAwaitingClients, removeUserFromAwaiting,
            hf, hfu]
      | some s =>
          have hne : s.singerId ≠ sid := hsing s rfl
          simp [removeUser, updateAwaitingClients, removeUserFromAwaiting,
            hf, hfu, hne]

/-- A room with a one-member barrier, no song loaded; id "A" absent. -/
def idleBarrierRoom : RoomState :=
  { initialRoom with
      users := ["B"]
      awaitingClients := ["B"] }

/-- Witness for C7's amended theorem: duplicate removal of "A". -/
theorem removeUser_absent_noop_witness :
    ("A" ∉ idleBarrierRoom.users ∧ "A" ∉ idleBarrierRoom.awaitingClients) ∧
    removeUser idleBarrierRoom "A" = (idleBarrierRoom, []) :=
  ⟨⟨by decide, by decide⟩,
   removeUser_absent_noop idleBarrierRoom "A" (by decide) (by decide)
     (by decide) (fun s h => by simp [idleBarrierRoom, initialRoom] at h)⟩

/-- A room mid-barrier: "B"'s song is loaded, "A" still awaited. -/
def doubleReadyRoom : RoomState :=
  { initialRoom with
      nowPlaying := some { singerId := "B", videoData := { title := "tB", url := "uB" } }
      users := ["A", "B"]
      awaitingClients := ["A"]
      playerStatus := some PlayerState.UNSTARTED }

/-- C2 counterexample: the report sequence A, B (B reporting after the
barrier already drained) empties the barrier and reaches PLAYING, but
the "now playing" broadcast is emitted twice, not exactly once. -/
theorem readiness_drain_single_broadcast_cex :
    doubleReadyRoom.nowPlaying ≠ none ∧
    doubleReadyRoom.awaitingClients ≠ [] ∧
    (runReports doubleReadyRoom ["A", "B"]).1.awaitingClients = [] ∧
    (runReports doubleReadyRoom ["A", "B"]).1.playerStatus =
      some PlayerState.PLAYING ∧
    countNowPlaying (runReports doubleReadyRoom ["A", "B"]).2 = 2 := by
  decide

lemma updateAwaitingClients_empty (r : RoomState) (sid : String) (s : Song)
    (hnp : r.nowPlaying = some s)
    (hf : r.awaitingClients.filter (fun i => i != sid) = []) :
    updateAwaitingClients r sid =
      ({ r with awaitingClients := [], playerStatus := some PlayerState.PLAYING },
       [Emission.notification ("Now playing: " ++ s.videoData.title),
        Emission.videoControl none PlayerState.PLAYING]) := by
  simp [updateAwaitingClients, removeUserFromAwaiting, playVideo, hf, hnp]

lemma updateAwaitingClients_cons (r : RoomState) (sid a : String)
    (as : List String)
    (hf : r.awaitingClients.filter (fun i => i != sid) = a :: as) :
    updateAwaitingClients r sid = ({ r with awaitingClients := a :: as }, []) := by
  simp [updateAwaitingClients, removeUserFromAwaiting, hf]

lemma nowPlaying_msg_true (t : String) :
    isNowPlayingMsg (Emission.notification ("Now playing: " ++ t)) = true := by
  simp [isNowPlayingMsg]

lemma nowPlaying_msg_vc (target : Option String) (code : PlayerState) :
    isNowPlayingMsg (Emission.videoControl target code) = false := rfl

/-- C2 (amended): from a room with a loaded song and a non-empty
barrier, any sequence of readiness reports that empties the barrier
exactly at its last report (no reports arrive after the drain) ends
with `playerStatus` PLAYING, an empty barrier, and exactly one
"now playing" broadcast over the whole sequence. -/
theorem readiness_drain_single_broadcast (r : RoomState) (s : Song)
    (sids : List String) (hnp : r.nowPlaying = some s)
    (hne : r.awaitingClients ≠ []) (hdr : drainsAtEnd r sids = true) :
    (runReports r sids).1.playerStatus = some PlayerState.PLAYING ∧
    (runReports r sids).1.awaitingClients = [] ∧
    countNowPlaying (runReports r sids).2 = 1 := by
  induction sids generalizing r with
  | nil => simp [drainsAtEnd] at hdr
  | cons sid rest ih =>
      cases hf : r.awaitingClients.filter (fun i => i != sid) with
      | nil =>
          have hu := updateAwaitingClients_empty r sid s hnp hf
          have hrest : rest = [] := by
            simpa [drainsAtEnd, hu] using hdr
          subst hrest
          simp [runReports, hu, countNowPlaying, nowPlaying_msg_true,
            nowPlaying_msg_vc]
      | cons a as =>
          have hu := updateAwaitingClients_cons r sid a as hf
          have hdr2 : drainsAtEnd { r with awaitingClients := a :: as } rest = true := by
            simpa [drainsAtEnd, hu] using hdr
          have ihr := ih { r with awaitingClients := a :: as }
            (by simpa using hnp) (by simp) hdr2
          simpa [runReports, hu] using ihr

/-- A room with song loaded and both users awaited: draining in order
A then B. -/
def drainRoom : RoomState :=
  { initialRoom with
      nowPlaying := some { singerId := "A", videoData := { title := "tA", url := "uA" } }
      users := ["A", "B"]
      awaitingClients := ["A", "B"]
      playerStatus := some PlayerState.UNSTARTED }

/-- Witness for C2's amended theorem on `drainRoom` with reports A, B. -/
theorem readiness_drain_single_broadcast_witness :
    (drainRoom.awaitingClients ≠ [] ∧
      drainsAtEnd drainRoom ["A", "B"] = true) ∧
    ((runReports drainRoom ["A", "B"]).1.playerStatus =
        some PlayerState.PLAYING ∧
     (runReports drainRoom ["A", "B"]).1.awaitingClients = [] ∧
     countNowPlaying (runReports drainRoom ["A", "B"]).2 = 1) :=
  ⟨⟨by decide, by decide⟩,
   readiness_drain_single_broadcast drainRoom
     { singerId := "A", videoData := { title := "tA", url := "uA" } }
     ["A", "B"] rfl (by decide) (by decide)⟩

/-- Sample video metadata for the reachable singer-disconnect trace. -/
def vidA : VideoData := { title := "tA", url := "uA" }

/-- Second sample video metadata. -/
def vidB : VideoData := { title := "tB", url := "uB" }

/-- The reachable trace violating `awaitingClients ⊆ users`: A and B
join a fresh room, A enqueues (their song starts cycling), B enqueues a
second song, then A — the current singer — disconnects. `removeUser`
runs `cycleSongs` (which resets the barrier to `Object.keys(users)`,
still containing A) before deleting A from `users`. -/
def singerDisconnectTrace : RoomState :=
  let r1 := (addUser initialRoom "A").1
  let r2 := (addUser r1 "B").1
  let r3 := (addToSongQueue r2 vidA "A").state
  let r4 := (addToSongQueue r3 vidB "B").state
  (removeUser r4 "A").1

/-- C3: the invariant `awaitingClients ⊆ users` fails on a reachable
state — after the singer-disconnect sequence the departed id "A" is in
`awaitingClients` but not in `users`. -/
theorem awaiting_subset_users_violated :
    "A" ∈ singerDisconnectTrace.awaitingClients ∧
    "A" ∉ singerDisconnectTrace.users := by decide

end Hamtube
